import Mathlib

/-!
Shallow embedding of the VirtualDealRoom backend (Express + Socket.io + Mongoose
+ Redis).  The definitions below translate, handler by handler, the code of
`src/routes/deals.js` and `src/socket.js` together with the Mongoose schemas in
`src/models/`.  Object ids are modelled as `Nat`, timestamps as `Nat` (a single
instant `now` stands for the wall-clock reads inside one handler), money as
`Int`, and Mongo documents as Lean structures.  The durable store is a `DB`
record of document lists; the Redis cache is a `Cache` record of association
lists (TTL bookkeeping performs no eviction inside a single modelled run, so
`expire` calls are not represented).  Each handler returns its new state
together with a chronological trace of externally visible actions
(durable-store writes, room broadcasts, caller-directed emits, cache writes).
-/

namespace VirtualDealRoom

/-- Roles of the User schema (`role ∈ {buyer, seller, admin}`). -/
inductive Role where
  | buyer
  | seller
  | admin
deriving DecidableEq

/-- A user document, as far as the deal/socket handlers read it
(`_id`, `name`, `role`). -/
structure User where
  id : Nat
  name : String
  role : Role
deriving DecidableEq

/-- One entry of `Deal.priceHistory` (PriceHistorySchema). -/
structure PriceEntry where
  price : Int
  user : Nat
  timestamp : Nat
deriving DecidableEq

/-- A deal document (DealSchema).  `status` is kept as the raw string the
schema enumerates; `seller` and `listing` are optional references. -/
structure Deal where
  id : Nat
  title : String
  description : String
  price : Int
  status : String
  buyer : Nat
  seller : Option Nat
  listing : Option Nat
  initiatedBy : String
  priceHistory : List PriceEntry
  createdAt : Nat
  updatedAt : Nat
deriving DecidableEq

/-- A message document.  The Message model file is absent from the sources;
its shape is taken from the construction sites in `src/socket.js`
(`{deal, sender, content, read}` plus `_id`/`createdAt`) and from spec section 3
(`{id, dealId, senderId, content, read, createdAt}`). -/
structure Message where
  id : Nat
  deal : Nat
  sender : Nat
  content : String
  read : Bool
  createdAt : Nat
deriving DecidableEq

/-- Notification types (NotificationSchema `enum`). -/
inductive NotifType where
  | deal
  | message
  | price
  | document
  | status
deriving DecidableEq

/-- A notification document (NotificationSchema). -/
structure Notification where
  user : Nat
  ntype : NotifType
  content : String
  dealId : Option Nat
  read : Bool
  createdAt : Nat
deriving DecidableEq

/-- The durable store: the Mongo collections the embedded handlers touch. -/
structure DB where
  users : List User
  deals : List Deal
  messages : List Message
  notifications : List Notification
deriving DecidableEq

/-- `Deal.findById` -/
def DB.findDeal (db : DB) (dealId : Nat) : Option Deal :=
  db.deals.find? (fun d => d.id == dealId)

/-- `Message.findById` -/
def DB.findMessage (db : DB) (messageId : Nat) : Option Message :=
  db.messages.find? (fun m => m.id == messageId)

/-- Saving an already-existing deal document (`deal.save()`): the stored copy
with the same `_id` is replaced. -/
def DB.putDeal (db : DB) (d : Deal) : DB :=
  { db with deals := db.deals.map (fun e => if e.id = d.id then d else e) }

/-- Saving an already-existing message document (`message.save()`). -/
def DB.putMessage (db : DB) (m : Message) : DB :=
  { db with messages := db.messages.map (fun e => if e.id = m.id then m else e) }

/-- Inserting a freshly constructed message (`new Message(...).save()`). -/
def DB.saveMessage (db : DB) (m : Message) : DB :=
  { db with messages := db.messages ++ [m] }

/-- Inserting a freshly constructed notification (`new Notification(...).save()`). -/
def DB.saveNotification (db : DB) (n : Notification) : DB :=
  { db with notifications := db.notifications ++ [n] }

/-- Mongoose `populate` of a user reference: the referenced user document.
A dangling reference would make the JS handlers crash on property access;
the default branch stands for that never-taken case on well-formed stores. -/
def userById (db : DB) (userId : Nat) : User :=
  (db.users.find? (fun u => u.id == userId)).getD { id := userId, name := "", role := Role.buyer }

/-- The `{_id, name, role}` projection of a user that the handlers embed in
cached JSON and in broadcast payloads. -/
structure UserInfo where
  id : Nat
  name : String
  role : Role
deriving DecidableEq

/-- The per-message JSON object cached in Redis (`messageData` in
`src/routes/deals.js` and `src/socket.js`). -/
structure CachedMessage where
  id : Nat
  deal : Nat
  sender : UserInfo
  content : String
  read : Bool
  createdAt : Nat
deriving DecidableEq

/-- The denormalized deal snapshot written to Redis by `update_price`
(`dealData` in `src/socket.js`). -/
structure DealSnapshot where
  id : Nat
  title : String
  price : Int
  status : String
  buyer : UserInfo
  seller : Option UserInfo
deriving DecidableEq

/-- The Redis keys the handlers use: `deal:<id>:messages` lists,
`deal:<id>:users` sets and `deal:<id>` snapshot strings. -/
structure Cache where
  messageLists : List (Nat × List CachedMessage)
  userSets : List (Nat × List Nat)
  dealSnapshots : List (Nat × DealSnapshot)
deriving DecidableEq

/-- `lrange deal:<id>:messages 0 -1` — a missing key reads as the empty list. -/
def Cache.lrangeMessages (c : Cache) (dealId : Nat) : List CachedMessage :=
  ((c.messageLists.find? (fun p => p.1 == dealId)).map Prod.snd).getD []

/-- Replace the whole `deal:<id>:messages` list. -/
def Cache.setMessageList (c : Cache) (dealId : Nat) (l : List CachedMessage) : Cache :=
  { c with messageLists := (dealId, l) :: c.messageLists.filter (fun p => !(p.1 == dealId)) }

/-- `rpush deal:<id>:messages x` (appends at the tail, creating the key). -/
def Cache.rpushMessage (c : Cache) (dealId : Nat) (x : CachedMessage) : Cache :=
  c.setMessageList dealId (c.lrangeMessages dealId ++ [x])

/-- `smembers deal:<id>:users` — a missing key reads as the empty set. -/
def Cache.susers (c : Cache) (dealId : Nat) : List Nat :=
  ((c.userSets.find? (fun p => p.1 == dealId)).map Prod.snd).getD []

/-- `sadd deal:<id>:users uid`. -/
def Cache.saddUser (c : Cache) (dealId userId : Nat) : Cache :=
  let cur := c.susers dealId
  { c with userSets :=
      (dealId, if userId ∈ cur then cur else cur ++ [userId]) ::
        c.userSets.filter (fun p => !(p.1 == dealId)) }

/-- `srem deal:<id>:users uid`. -/
def Cache.sremUser (c : Cache) (dealId userId : Nat) : Cache :=
  { c with userSets :=
      (dealId, (c.susers dealId).filter (fun x => !(x == userId))) ::
        c.userSets.filter (fun p => !(p.1 == dealId)) }

/-- `set deal:<id> dealData`. -/
def Cache.setSnapshot (c : Cache) (dealId : Nat) (s : DealSnapshot) : Cache :=
  { c with dealSnapshots := (dealId, s) :: c.dealSnapshots.filter (fun p => !(p.1 == dealId)) }

/-- Combined server-side mutable state: durable store plus cache. -/
structure St where
  db : DB
  cache : Cache
deriving DecidableEq

/-- Socket.io room names: `user:<id>`. -/
def userRoom (userId : Nat) : String := "user:" ++ toString userId

/-- Socket.io room names: `deal:<id>`. -/
def dealRoom (dealId : Nat) : String := "deal:" ++ toString dealId

/-- Socket.io event payloads emitted by the embedded handlers. -/
inductive Event where
  | newNotification (n : Notification)
  | newMessage (m : Message)
  | messageRead (messageId : Nat)
  | dealStatusUpdated (d : Deal)
  | priceUpdated (d : Deal) (price : Int) (user : UserInfo) (timestamp : Nat)
  | errMsg (message : String)
deriving DecidableEq

/-- One externally visible action of a handler, in chronological order:
durable-store writes, broadcasts to a room, emits back to the requesting
connection, and cache writes. -/
inductive Act where
  | persistDeal (d : Deal)
  | persistMessage (m : Message)
  | persistNotification (n : Notification)
  | emitRoom (room : String) (ev : Event)
  | emitCaller (ev : Event)
  | cachePush (dealId : Nat) (c : CachedMessage)
  | cacheSetSnap (dealId : Nat) (s : DealSnapshot)
  | cacheAddUser (dealId userId : Nat)
  | cacheRemoveUser (dealId userId : Nat)
deriving DecidableEq

/-- Whether an action is an error emitted back to the caller. -/
def Act.isCallerError : Act → Bool
  | .emitCaller (.errMsg _) => true
  | _ => false

/-- An HTTP response of the deal routes: `res.json(deal)` or
`res.status(code).json({message})`. -/
inductive HttpRes where
  | ok (deal : Deal)
  | err (code : Nat) (msg : String)
deriving DecidableEq

/-- Whether an HTTP response is an error status. -/
def HttpRes.isErr : HttpRes → Bool
  | .ok _ => false
  | .err _ _ => true

/-- Result of an HTTP deal route: new state, response, action trace. -/
structure HttpOut where
  st : St
  res : HttpRes
  trace : List Act
deriving DecidableEq

/-- The authorization check repeated across the deal routes: the requester is
the deal's buyer, its assigned seller, or an admin
(`deal.buyer.toString() === req.user.id || (deal.seller && deal.seller.toString() === req.user.id) || req.user.role === "admin"`). -/
def isAuthorizedOnDeal (deal : Deal) (user : User) : Prop :=
  deal.buyer = user.id ∨ deal.seller = some user.id ∨ user.role = Role.admin

instance (deal : Deal) (user : User) : Decidable (isAuthorizedOnDeal deal user) := by
  unfold isAuthorizedOnDeal; infer_instance

/-- The `join_deal` participant check (`deal.buyer.toString() === socket.user._id.toString() || (deal.seller && deal.seller.toString() === socket.user._id.toString())`). -/
def isParticipant (deal : Deal) (user : User) : Prop :=
  deal.buyer = user.id ∨ deal.seller = some user.id

instance (deal : Deal) (user : User) : Decidable (isParticipant deal user) := by
  unfold isParticipant; infer_instance

/-- The status strings accepted by `PUT /api/deals/:id/status`. -/
def validStatuses : List String := ["pending", "in-progress", "completed", "cancelled"]

/-- The `statusText` lookup table of the status route (only ever applied to a
string of `validStatuses`). -/
def statusText (status : String) : String :=
  if status = "pending" then "set to pending"
  else if status = "in-progress" then "accepted"
  else if status = "completed" then "marked as completed"
  else "cancelled"

/-- `PUT /api/deals/:id/status` (src/routes/deals.js, lines 335-408).
Validates the requested status string, loads the deal, runs the generic
authorization check, then the in-progress role check, assigns the seller when
a seller accepts an unassigned deal, saves, notifies the other participant and
broadcasts `deal_status_updated` to the deal room.  A seller assigned in this
very request is a bare id rather than a populated document, so the JS
expression `deal.seller?._id` is undefined for it and no notification is sent
on that path. -/
def updateDealStatusRoute (st : St) (user : User) (dealId : Nat) (status : String) (now : Nat) : HttpOut :=
  if status ∉ validStatuses then
    { st := st, res := .err 400 "Invalid status", trace := [] }
  else
    match st.db.findDeal dealId with
    | none => { st := st, res := .err 404 "Deal not found", trace := [] }
    | some deal =>
      if ¬ isAuthorizedOnDeal deal user then
        { st := st, res := .err 403 "Not authorized to update this deal", trace := [] }
      else if status = "in-progress" ∧ user.role ≠ Role.seller ∧ user.role ≠ Role.admin then
        { st := st, res := .err 403 "Only sellers can accept deals", trace := [] }
      else
        let assigningSeller : Bool :=
          decide (status = "in-progress" ∧ user.role = Role.seller ∧ deal.seller = none)
        let deal1 := if assigningSeller then { deal with seller := some user.id } else deal
        let dealSaved := { deal1 with status := status, updatedAt := now }
        let db1 := st.db.putDeal dealSaved
        let otherParticipantId : Option Nat :=
          if deal.buyer = user.id then (if assigningSeller then none else dealSaved.seller)
          else some deal.buyer
        match otherParticipantId with
        | some pid =>
          let notification : Notification :=
            { user := pid, ntype := .status,
              content := "Deal \"" ++ deal.title ++ "\" was " ++ statusText status ++ " by " ++ user.name,
              dealId := some deal.id, read := false, createdAt := now }
          { st := { db := db1.saveNotification notification, cache := st.cache },
            res := .ok dealSaved,
            trace := [.persistDeal dealSaved, .persistNotification notification,
                      .emitRoom (userRoom pid) (.newNotification notification),
                      .emitRoom (dealRoom deal.id) (.dealStatusUpdated dealSaved)] }
        | none =>
          { st := { db := db1, cache := st.cache },
            res := .ok dealSaved,
            trace := [.persistDeal dealSaved,
                      .emitRoom (dealRoom deal.id) (.dealStatusUpdated dealSaved)] }

/-- `PUT /api/deals/:id` (src/routes/deals.js, lines 290-330).  Loads the deal,
checks authorization, rejects terminal deals, then applies the truthy body
fields `title` and `description` and saves. -/
def updateDealRoute (st : St) (user : User) (dealId : Nat)
    (title description : Option String) (now : Nat) : HttpOut :=
  match st.db.findDeal dealId with
  | none => { st := st, res := .err 404 "Deal not found", trace := [] }
  | some deal =>
    if ¬ isAuthorizedOnDeal deal user then
      { st := st, res := .err 403 "Not authorized to update this deal", trace := [] }
    else if deal.status = "completed" ∨ deal.status = "cancelled" then
      { st := st, res := .err 400 "Cannot update a completed or cancelled deal", trace := [] }
    else
      let deal1 := match title with
        | some t => if t ≠ "" then { deal with title := t } else deal
        | none => deal
      let deal2 := match description with
        | some d => if d ≠ "" then { deal1 with description := d } else deal1
        | none => deal1
      let dealSaved := { deal2 with updatedAt := now }
      { st := { db := st.db.putDeal dealSaved, cache := st.cache },
        res := .ok dealSaved,
        trace := [.persistDeal dealSaved] }

/-- Insert a message into a list already sorted by ascending `createdAt`. -/
def insertByCreatedAt (m : Message) : List Message → List Message
  | [] => [m]
  | x :: xs => if m.createdAt ≤ x.createdAt then m :: x :: xs else x :: insertByCreatedAt m xs

/-- The durable-store query `Message.find({deal}).sort({createdAt: 1})`
(oldest first), as an insertion sort over the filtered collection. -/
def sortByCreatedAt : List Message → List Message
  | [] => []
  | x :: xs => insertByCreatedAt x (sortByCreatedAt xs)

/-- The messages of a deal as the route's durable-store query returns them. -/
def dbMessagesOf (db : DB) (dealId : Nat) : List Message :=
  sortByCreatedAt (db.messages.filter (fun m => m.deal == dealId))

/-- The `messageData` JSON the messages route caches for one stored message:
the message fields with the sender reference populated from the users
collection. -/
def toCachedMessage (db : DB) (m : Message) : CachedMessage :=
  let u := userById db m.sender
  { id := m.id, deal := m.deal, sender := { id := u.id, name := u.name, role := u.role },
    content := m.content, read := m.read, createdAt := m.createdAt }

/-- Result payload of `GET /api/deals/:id/messages`: an error status, the
documents of a durable-store query, or the parsed cached JSON list. -/
inductive MessagesRes where
  | err (code : Nat) (msg : String)
  | docs (msgs : List Message)
  | cached (msgs : List CachedMessage)
deriving DecidableEq

/-- `GET /api/deals/:id/messages` (src/routes/deals.js, lines 413-479).
Loads the deal, checks authorization, then reads through the cache: a
non-empty cached list is returned verbatim; otherwise the durable store is
queried oldest-first, each message is `rpush`ed into the cache, and the
queried documents are returned.  Without Redis the store is queried directly. -/
def getMessagesRoute (st : St) (user : User) (dealId : Nat) (hasRedis : Bool) :
    St × MessagesRes × List Act :=
  match st.db.findDeal dealId with
  | none => (st, .err 404 "Deal not found", [])
  | some deal =>
    if ¬ isAuthorizedOnDeal deal user then
      (st, .err 403 "Not authorized to view messages for this deal", [])
    else if hasRedis then
      let cachedMessages := st.cache.lrangeMessages dealId
      if cachedMessages ≠ [] then
        (st, .cached cachedMessages, [])
      else
        let messages := dbMessagesOf st.db dealId
        let entries := messages.map (toCachedMessage st.db)
        ({ db := st.db, cache := entries.foldl (fun c e => c.rpushMessage dealId e) st.cache },
          .docs messages,
          entries.map (fun e => .cachePush dealId e))
    else
      (st, .docs (dbMessagesOf st.db dealId), [])

/-- `socket.on("join_deal")` (src/socket.js, lines 38-71).  Loads the deal;
a principal who is neither participant nor admin only gets an error event.
Otherwise the connection joins the `deal:<id>` room and, when Redis is up,
the principal id is added to the presence set. -/
def joinDealHandler (st : St) (user : User) (rooms : List String) (dealId : Nat)
    (hasRedis : Bool) : St × List String × List Act :=
  match st.db.findDeal dealId with
  | none => (st, rooms, [.emitCaller (.errMsg "Deal not found")])
  | some deal =>
    if ¬ isParticipant deal user ∧ user.role ≠ Role.admin then
      (st, rooms, [.emitCaller (.errMsg "Not authorized to join this deal")])
    else
      let rooms1 := rooms ++ [dealRoom dealId]
      if hasRedis then
        ({ db := st.db, cache := st.cache.saddUser dealId user.id }, rooms1,
          [.cacheAddUser dealId user.id])
      else
        (st, rooms1, [])

/-- `socket.on("leave_deal")` (src/socket.js, lines 74-82). -/
def leaveDealHandler (st : St) (user : User) (rooms : List String) (dealId : Nat)
    (hasRedis : Bool) : St × List String × List Act :=
  let rooms1 := rooms.filter (fun r => !(r == dealRoom dealId))
  if hasRedis then
    ({ db := st.db, cache := st.cache.sremUser dealId user.id }, rooms1,
      [.cacheRemoveUser dealId user.id])
  else
    (st, rooms1, [])

/-- `socket.on("send_message")` (src/socket.js, lines 85-154).  Loads the deal
(existence is the only check), persists the new message — `persistOk` models
whether the durable insert succeeds; a failure throws to the catch block,
which only emits an error to the sender — then broadcasts `new_message` to the
deal room, notifies the counter-party when one exists, and finally writes
through to the cache (`lpush` + `ltrim 0 49`). -/
def sendMessageHandler (st : St) (user : User) (dealId : Nat) (message : String)
    (msgId now : Nat) (hasRedis persistOk : Bool) : St × List Act :=
  match st.db.findDeal dealId with
  | none => (st, [.emitCaller (.errMsg "Deal not found")])
  | some deal =>
    let newMessage : Message :=
      { id := msgId, deal := dealId, sender := user.id, content := message,
        read := false, createdAt := now }
    if ¬ persistOk then
      (st, [.emitCaller (.errMsg "Error sending message")])
    else
      let db1 := st.db.saveMessage newMessage
      let recipientId : Option Nat :=
        if deal.buyer = user.id then deal.seller else some deal.buyer
      let baseActs : List Act :=
        [.persistMessage newMessage, .emitRoom (dealRoom dealId) (.newMessage newMessage)]
      let withNotif : DB × List Act :=
        match recipientId with
        | some rid =>
          let notification : Notification :=
            { user := rid, ntype := .message,
              content := "New message from " ++ user.name ++ " in deal \"" ++ deal.title ++ "\"",
              dealId := some deal.id, read := false, createdAt := now }
          (db1.saveNotification notification,
            [.persistNotification notification,
             .emitRoom (userRoom rid) (.newNotification notification)])
        | none => (db1, [])
      if hasRedis then
        let messageData : CachedMessage :=
          { id := msgId, deal := dealId,
            sender := { id := user.id, name := user.name, role := user.role },
            content := message, read := false, createdAt := now }
        let cache1 :=
          st.cache.setMessageList dealId
            ((messageData :: st.cache.lrangeMessages dealId).take 50)
        ({ db := withNotif.1, cache := cache1 },
          baseActs ++ withNotif.2 ++ [.cachePush dealId messageData])
      else
        ({ db := withNotif.1, cache := st.cache }, baseActs ++ withNotif.2)

/-- `socket.on("mark_read")` (src/socket.js, lines 167-183).  A missing
message returns silently; otherwise the `read` flag is set to true, the
document saved, and `message_read` broadcast to the deal room. -/
def markReadHandler (st : St) (messageId : Nat) : St × List Act :=
  match st.db.findMessage messageId with
  | none => (st, [])
  | some message =>
    let messageSaved := { message with read := true }
    ({ db := st.db.putMessage messageSaved, cache := st.cache },
      [.persistMessage messageSaved,
       .emitRoom (dealRoom message.deal) (.messageRead messageId)])

/-- `socket.on("update_price")` (src/socket.js, lines 186-267).  Loads the
deal (existence is the only check — no participant authorization and no
terminal-status gate), sets the price, prepends (`unshift`) a price-history
entry, saves, broadcasts `price_updated` to the deal room, notifies the
counter-party, and refreshes the cached deal snapshot. -/
def updatePriceHandler (st : St) (user : User) (dealId : Nat) (price : Int)
    (now : Nat) (hasRedis : Bool) : St × List Act :=
  match st.db.findDeal dealId with
  | none => (st, [.emitCaller (.errMsg "Deal not found")])
  | some deal =>
    let entry : PriceEntry := { price := price, user := user.id, timestamp := now }
    let dealSaved :=
      { deal with price := price, priceHistory := entry :: deal.priceHistory, updatedAt := now }
    let db1 := st.db.putDeal dealSaved
    let priceUpdateEvt : Event :=
      .priceUpdated dealSaved price { id := user.id, name := user.name, role := user.role } now
    let baseActs : List Act :=
      [.persistDeal dealSaved, .emitRoom (dealRoom dealId) priceUpdateEvt]
    let recipientId : Option Nat :=
      if deal.buyer = user.id then dealSaved.seller else some deal.buyer
    let withNotif : DB × List Act :=
      match recipientId with
      | some rid =>
        let notification : Notification :=
          { user := rid, ntype := .price,
            content := user.name ++ " updated the price to $" ++ toString price ++
              " in deal \"" ++ deal.title ++ "\"",
            dealId := some deal.id, read := false, createdAt := now }
        (db1.saveNotification notification,
          [.persistNotification notification,
           .emitRoom (userRoom rid) (.newNotification notification)])
      | none => (db1, [])
    if hasRedis then
      let buyerDoc := userById st.db deal.buyer
      let dealData : DealSnapshot :=
        { id := dealSaved.id, title := dealSaved.title, price := dealSaved.price,
          status := dealSaved.status,
          buyer := { id := buyerDoc.id, name := buyerDoc.name, role := buyerDoc.role },
          seller := dealSaved.seller.map (fun sid =>
            let u := userById st.db sid
            { id := u.id, name := u.name, role := u.role }) }
      ({ db := withNotif.1, cache := st.cache.setSnapshot dealId dealData },
        baseActs ++ withNotif.2 ++ [.cacheSetSnap dealId dealData])
    else
      ({ db := withNotif.1, cache := st.cache }, baseActs ++ withNotif.2)

/-- The closed space of modelled state-touching operations (the socket events
plus the embedded deal routes), used to state store-wide invariants. -/
inductive Op where
  | join (user : User) (rooms : List String) (dealId : Nat) (hasRedis : Bool)
  | leave (user : User) (rooms : List String) (dealId : Nat) (hasRedis : Bool)
  | send (user : User) (dealId : Nat) (message : String) (msgId now : Nat)
      (hasRedis persistOk : Bool)
  | markRead (messageId : Nat)
  | updatePrice (user : User) (dealId : Nat) (price : Int) (now : Nat) (hasRedis : Bool)
  | updateDeal (user : User) (dealId : Nat) (title description : Option String) (now : Nat)
  | updateStatus (user : User) (dealId : Nat) (status : String) (now : Nat)
  | getMessages (user : User) (dealId : Nat) (hasRedis : Bool)

/-- The state transformer of one modelled operation. -/
def applyOp (op : Op) (st : St) : St :=
  match op with
  | .join u r d h => (joinDealHandler st u r d h).1
  | .leave u r d h => (leaveDealHandler st u r d h).1
  | .send u d m mi n h p => (sendMessageHandler st u d m mi n h p).1
  | .markRead mid => (markReadHandler st mid).1
  | .updatePrice u d p n h => (updatePriceHandler st u d p n h).1
  | .updateDeal u d t de n => (updateDealRoute st u d t de n).st
  | .updateStatus u d s n => (updateDealStatusRoute st u d s n).st
  | .getMessages u d h => (getMessagesRoute st u d h).1

/-! Concrete fixtures used to instantiate the theorems below on closed inputs. -/

/-- A buyer account. -/
def buyerBea : User := { id := 10, name := "Bea", role := Role.buyer }

/-- A seller account, not yet attached to any deal. -/
def sellerSol : User := { id := 20, name := "Sol", role := Role.seller }

/-- Another seller account, participant of no fixture deal. -/
def sellerEve : User := { id := 30, name := "Eve", role := Role.seller }

/-- A pending deal with no assigned seller. -/
def samplePendingDeal : Deal :=
  { id := 1, title := "Bike", description := "A bike", price := 100, status := "pending",
    buyer := 10, seller := none, listing := none, initiatedBy := "buyer",
    priceHistory := [{ price := 100, user := 10, timestamp := 0 }],
    createdAt := 0, updatedAt := 0 }

/-- A completed deal between Bea and Sol. -/
def sampleCompletedDeal : Deal :=
  { id := 2, title := "Car", description := "A car", price := 500, status := "completed",
    buyer := 10, seller := some 20, listing := none, initiatedBy := "buyer",
    priceHistory := [{ price := 500, user := 10, timestamp := 0 }],
    createdAt := 0, updatedAt := 1 }

/-- A stored message on the completed deal. -/
def sampleMessage : Message :=
  { id := 5, deal := 2, sender := 10, content := "hi", read := false, createdAt := 3 }

/-- A server state holding the fixtures with an empty cache. -/
def sampleSt : St :=
  { db := { users := [buyerBea, sellerSol, sellerEve],
            deals := [samplePendingDeal, sampleCompletedDeal],
            messages := [sampleMessage],
            notifications := [] },
    cache := { messageLists := [], userSets := [], dealSnapshots := [] } }

/-! ### Theorems -/

/-- Helper: the status route rejects with 403 any requester of role seller who
is not the deal's buyer while the deal has no assigned seller — the generic
authorization check runs before the acceptance branch, leaving the whole
request without effect. -/
theorem statusRoute_rejects_unassigned_seller (st : St) (user : User)
    (dealId now : Nat) (deal : Deal)
    (hfind : st.db.findDeal dealId = some deal)
    (hseller : deal.seller = none)
    (hbuyer : deal.buyer ≠ user.id)
    (hrole : user.role = Role.seller) :
    updateDealStatusRoute st user dealId "in-progress" now =
      { st := st, res := .err 403 "Not authorized to update this deal", trace := [] } := by
  have hauth : ¬ isAuthorizedOnDeal deal user := by
    unfold isAuthorizedOnDeal
    push_neg
    refine ⟨hbuyer, ?_, ?_⟩
    · rw [hseller]; simp
    · rw [hrole]; simp
  unfold updateDealStatusRoute
  rw [if_neg (by decide : ¬ ("in-progress" ∉ validStatuses))]
  rw [hfind]
  dsimp only
  rw [if_pos hauth]

/-- C1: contrary to the claim, a status-update request to `in-progress` on a
pending, seller-less deal made by a principal of role seller who is not the
deal's buyer does NOT succeed: the route's generic authorization check rejects
it with 403 "Not authorized to update this deal", the deal record (in
particular its status and seller fields) is unchanged, and no notification is
created or published. -/
theorem c1_unassigned_seller_acceptance_rejected (st : St) (user : User)
    (dealId now : Nat) (deal : Deal)
    (hfind : st.db.findDeal dealId = some deal)
    (hstatus : deal.status = "pending")
    (hseller : deal.seller = none)
    (hbuyer : deal.buyer ≠ user.id)
    (hrole : user.role = Role.seller) :
    updateDealStatusRoute st user dealId "in-progress" now =
      { st := st, res := .err 403 "Not authorized to update this deal", trace := [] } :=
  statusRoute_rejects_unassigned_seller st user dealId now deal hfind hseller hbuyer hrole

/-- C1 witness: the rejection evaluated on the concrete pending fixture deal. -/
theorem c1_unassigned_seller_acceptance_rejected_witness :
    sampleSt.db.findDeal 1 = some samplePendingDeal ∧
    samplePendingDeal.status = "pending" ∧
    samplePendingDeal.seller = none ∧
    samplePendingDeal.buyer ≠ sellerSol.id ∧
    sellerSol.role = Role.seller ∧
    updateDealStatusRoute sampleSt sellerSol 1 "in-progress" 7 =
      { st := sampleSt, res := .err 403 "Not authorized to update this deal", trace := [] } :=
  ⟨by decide, by decide, by decide, by decide, by decide,
    c1_unassigned_seller_acceptance_rejected sampleSt sellerSol 1 7 samplePendingDeal
      (by decide) (by decide) (by decide) (by decide) (by decide)⟩

/-- C2: contrary to the claim, when two distinct sellers (neither of whom is
the deal's buyer) attempt the `in-progress` acceptance of the same pending,
unassigned deal, ZERO attempts win: executed one after the other (and, since a
rejected attempt performs no write, under any interleaving of their
store accesses), both are rejected with 403 by the generic authorization check
and the deal — its seller field included — is left exactly as it was. -/
theorem c2_concurrent_acceptance_zero_winners (st : St) (s1 s2 : User)
    (dealId now1 now2 : Nat) (deal : Deal)
    (hfind : st.db.findDeal dealId = some deal)
    (hstatus : deal.status = "pending")
    (hseller : deal.seller = none)
    (hb1 : deal.buyer ≠ s1.id) (hb2 : deal.buyer ≠ s2.id)
    (hr1 : s1.role = Role.seller) (hr2 : s2.role = Role.seller) :
    (updateDealStatusRoute st s1 dealId "in-progress" now1).res =
      .err 403 "Not authorized to update this deal" ∧
    (updateDealStatusRoute st s1 dealId "in-progress" now1).st = st ∧
    (updateDealStatusRoute (updateDealStatusRoute st s1 dealId "in-progress" now1).st
        s2 dealId "in-progress" now2).res =
      .err 403 "Not authorized to update this deal" ∧
    (updateDealStatusRoute (updateDealStatusRoute st s1 dealId "in-progress" now1).st
        s2 dealId "in-progress" now2).st = st := by
  have h1 := statusRoute_rejects_unassigned_seller st s1 dealId now1 deal hfind hseller hb1 hr1
  have h2 := statusRoute_rejects_unassigned_seller st s2 dealId now2 deal hfind hseller hb2 hr2
  rw [h1]
  exact ⟨rfl, rfl, by rw [h2], by rw [h2]⟩

/-- C2 witness: both concrete seller fixtures are rejected on the pending
fixture deal and the state is untouched. -/
theorem c2_concurrent_acceptance_zero_winners_witness :
    sampleSt.db.findDeal 1 = some samplePendingDeal ∧
    samplePendingDeal.seller = none ∧
    (updateDealStatusRoute sampleSt sellerSol 1 "in-progress" 7).res =
      .err 403 "Not authorized to update this deal" ∧
    (updateDealStatusRoute (updateDealStatusRoute sampleSt sellerSol 1 "in-progress" 7).st
        sellerEve 1 "in-progress" 8).res =
      .err 403 "Not authorized to update this deal" ∧
    (updateDealStatusRoute (updateDealStatusRoute sampleSt sellerSol 1 "in-progress" 7).st
        sellerEve 1 "in-progress" 8).st = sampleSt :=
  ⟨by decide, by decide,
    (c2_concurrent_acceptance_zero_winners sampleSt sellerSol sellerEve 1 7 8 samplePendingDeal
      (by decide) (by decide) (by decide) (by decide) (by decide) (by decide) (by decide)).1,
    (c2_concurrent_acceptance_zero_winners sampleSt sellerSol sellerEve 1 7 8 samplePendingDeal
      (by decide) (by decide) (by decide) (by decide) (by decide) (by decide) (by decide)).2.2.1,
    (c2_concurrent_acceptance_zero_winners sampleSt sellerSol sellerEve 1 7 8 samplePendingDeal
      (by decide) (by decide) (by decide) (by decide) (by decide) (by decide) (by decide)).2.2.2⟩

/-- C3 counterexample: on the completed fixture deal, the buyer's request to
change the status to `cancelled` is NOT rejected — the status route never
inspects the current status — so the response is a success and the stored
deal's status really changes, refuting the claim that every title /
description / status change on a terminal deal is rejected with the record
left unchanged. -/
theorem c3_terminal_status_change_succeeds_cex :
    (updateDealStatusRoute sampleSt buyerBea 2 "cancelled" 7).res.isErr = false ∧
    (updateDealStatusRoute sampleSt buyerBea 2 "cancelled" 7).st ≠ sampleSt ∧
    ((updateDealStatusRoute sampleSt buyerBea 2 "cancelled" 7).st.db.findDeal 2).map
        Deal.status = some "cancelled" := by
  refine ⟨by decide, ?_, by decide⟩
  decide

/-- C3 (amended): for a deal whose status is `completed` or `cancelled`, any
request to change its title or description via the update route is rejected
with an error (400 for an authorized principal, 403 otherwise) and the state
is unchanged; status-update requests, however, are not gated on the current
status and can succeed (see the counterexample). -/
theorem c3_terminal_deal_edit_rejected (st : St) (user : User) (dealId : Nat)
    (title description : Option String) (now : Nat) (deal : Deal)
    (hfind : st.db.findDeal dealId = some deal)
    (hterm : deal.status = "completed" ∨ deal.status = "cancelled") :
    (updateDealRoute st user dealId title description now).st = st ∧
    (updateDealRoute st user dealId title description now).res.isErr = true ∧
    (updateDealRoute st user dealId title description now).trace = [] := by
  unfold updateDealRoute
  rw [hfind]
  dsimp only
  by_cases hauth : isAuthorizedOnDeal deal user
  · rw [if_neg (not_not_intro hauth), if_pos hterm]
    exact ⟨rfl, rfl, rfl⟩
  · rw [if_pos hauth]
    exact ⟨rfl, rfl, rfl⟩

/-- C3 witness: a title edit by the deal's own buyer on the completed fixture
deal is rejected and leaves the state unchanged. -/
theorem c3_terminal_deal_edit_rejected_witness :
    sampleSt.db.findDeal 2 = some sampleCompletedDeal ∧
    (sampleCompletedDeal.status = "completed" ∨ sampleCompletedDeal.status = "cancelled") ∧
    (updateDealRoute sampleSt buyerBea 2 (some "New title") none 7).st = sampleSt ∧
    (updateDealRoute sampleSt buyerBea 2 (some "New title") none 7).res.isErr = true :=
  ⟨by decide, Or.inl (by decide),
    (c3_terminal_deal_edit_rejected sampleSt buyerBea 2 (some "New title") none 7
      sampleCompletedDeal (by decide) (Or.inl (by decide))).1,
    (c3_terminal_deal_edit_rejected sampleSt buyerBea 2 (some "New title") none 7
      sampleCompletedDeal (by decide) (Or.inl (by decide))).2.1⟩

/-- Helper: replacing, in a list, every element sharing the id of an element
found by id leaves exactly the replacement to be found. -/
theorem find?_replaceById {α : Type} (idOf : α → Nat) (l : List α) (k : Nat) (m mNew : α)
    (hm : l.find? (fun e => idOf e == k) = some m) (hid : idOf mNew = idOf m) :
    (l.map (fun e => if idOf e = idOf mNew then mNew else e)).find? (fun e => idOf e == k) =
      some mNew := by
  have hmk : idOf m = k := by
    have := List.find?_some hm
    simpa using this
  induction l with
  | nil => simp at hm
  | cons a t ih =>
    by_cases hp : idOf a = k
    · rw [List.find?_cons_of_pos _ (by simpa using hp)] at hm
      have ham : a = m := by injection hm
      subst ham
      rw [List.map_cons, if_pos (by rw [hid]),
        List.find?_cons_of_pos _ (by simpa [hid] using hp)]
    · rw [List.find?_cons_of_neg _ (by simpa using hp)] at hm
      rw [List.map_cons, if_neg (by rw [hid, hmk]; exact hp),
        List.find?_cons_of_neg _ (by simpa using hp)]
      exact ih hm

/-- Helper: saving a deal sharing the id of a found deal makes the saved copy
the one found. -/
theorem findDeal_putDeal (db : DB) (k : Nat) (d dNew : Deal)
    (h : db.findDeal k = some d) (hid : dNew.id = d.id) :
    (db.putDeal dNew).findDeal k = some dNew :=
  find?_replaceById Deal.id db.deals k d dNew h hid

/-- Helper: saving a message sharing the id of a found message makes the saved
copy the one found. -/
theorem findMessage_putMessage (db : DB) (k : Nat) (m mNew : Message)
    (h : db.findMessage k = some m) (hid : mNew.id = m.id) :
    (db.putMessage mNew).findMessage k = some mNew :=
  find?_replaceById Message.id db.messages k m mNew h hid

/-- Helper: inserting a notification does not affect deal lookups. -/
theorem findDeal_saveNotification (db : DB) (n : Notification) (k : Nat) :
    (db.saveNotification n).findDeal k = db.findDeal k := rfl

/-- C4 counterexample: on the pending (non-terminal) fixture deal, an
`update_price` request by a principal who is neither the deal's buyer, nor an
assigned seller (there is none), nor an admin is NOT rejected: the state
changes, the stored price becomes the requested one, and no error event is
emitted — refuting the claim's rejection clause. -/
theorem c4_update_price_no_authorization_cex :
    (updatePriceHandler sampleSt sellerEve 1 90 5 false).1 ≠ sampleSt ∧
    ((updatePriceHandler sampleSt sellerEve 1 90 5 false).1.db.findDeal 1).map Deal.price =
      some 90 ∧
    (updatePriceHandler sampleSt sellerEve 1 90 5 false).2.all
      (fun a => !a.isCallerError) = true := by
  refine ⟨?_, by decide, by decide⟩
  decide

/-- C4 (amended): `update_price` performs no participant authorization and no
terminal-status check: for every existing deal, the request of ANY
authenticated principal — the assigned seller as well as a complete outsider —
succeeds, setting the deal's price to the new price and prepending exactly one
price-history entry that records the acting user and a timestamp while all
previous entries are unchanged; a `price_updated` broadcast is sent to the
deal room and no error event is emitted. -/
theorem c4_update_price_succeeds_for_any_principal (st : St) (user : User)
    (dealId : Nat) (price : Int) (now : Nat) (hasRedis : Bool) (deal : Deal)
    (hfind : st.db.findDeal dealId = some deal) :
    (updatePriceHandler st user dealId price now hasRedis).1.db.findDeal dealId =
      some { deal with price := price,
                       priceHistory := { price := price, user := user.id, timestamp := now }
                         :: deal.priceHistory,
                       updatedAt := now } ∧
    Act.emitRoom (dealRoom dealId)
        (.priceUpdated
          { deal with price := price,
                      priceHistory := { price := price, user := user.id, timestamp := now }
                        :: deal.priceHistory,
                      updatedAt := now }
          price { id := user.id, name := user.name, role := user.role } now) ∈
      (updatePriceHandler st user dealId price now hasRedis).2 ∧
    (∀ ev, Act.emitCaller ev ∉ (updatePriceHandler st user dealId price now hasRedis).2) := by
  have hput := findDeal_putDeal st.db dealId deal
    { deal with price := price,
                priceHistory := { price := price, user := user.id, timestamp := now }
                  :: deal.priceHistory,
                updatedAt := now } hfind rfl
  unfold updatePriceHandler
  rw [hfind]
  dsimp only
  cases hasRedis <;> simp only [Bool.false_eq_true, reduceIte] <;> split <;>
    exact ⟨hput, by simp, by intro ev; simp⟩

/-- C4 witness: the assigned seller's price update on the completed fixture
deal goes through, storing the new price at the head of the history. -/
theorem c4_update_price_succeeds_for_any_principal_witness :
    sampleSt.db.findDeal 2 = some sampleCompletedDeal ∧
    (updatePriceHandler sampleSt sellerSol 2 450 9 false).1.db.findDeal 2 =
      some { sampleCompletedDeal with
               price := 450,
               priceHistory := { price := 450, user := sellerSol.id, timestamp := 9 }
                 :: sampleCompletedDeal.priceHistory,
               updatedAt := 9 } :=
  ⟨by decide,
    (c4_update_price_succeeds_for_any_principal sampleSt sellerSol 2 450 9 false
      sampleCompletedDeal (by decide)).1⟩

/-- C5: a `join_deal` request on an existing deal by a principal who is
neither the deal's buyer, nor its assigned seller, nor an admin only emits an
error event back to the requesting connection: the connection's room list is
unchanged (no deal-channel membership) and the state — the presence sets
included — is untouched. -/
theorem c5_join_deal_unauthorized_rejected (st : St) (user : User)
    (rooms : List String) (dealId : Nat) (hasRedis : Bool) (deal : Deal)
    (hfind : st.db.findDeal dealId = some deal)
    (hnp : ¬ isParticipant deal user)
    (hna : user.role ≠ Role.admin) :
    joinDealHandler st user rooms dealId hasRedis =
      (st, rooms, [.emitCaller (.errMsg "Not authorized to join this deal")]) := by
  unfold joinDealHandler
  rw [hfind]
  dsimp only
  rw [if_pos ⟨hnp, hna⟩]

/-- C5 witness: the outsider seller is turned away from the completed fixture
deal with only an error event. -/
theorem c5_join_deal_unauthorized_rejected_witness :
    sampleSt.db.findDeal 2 = some sampleCompletedDeal ∧
    ¬ isParticipant sampleCompletedDeal sellerEve ∧
    sellerEve.role ≠ Role.admin ∧
    joinDealHandler sampleSt sellerEve ["user:30"] 2 true =
      (sampleSt, ["user:30"], [.emitCaller (.errMsg "Not authorized to join this deal")]) :=
  ⟨by decide, by decide, by decide,
    c5_join_deal_unauthorized_rejected sampleSt sellerEve ["user:30"] 2 true
      sampleCompletedDeal (by decide) (by decide) (by decide)⟩

/-- In a trace, every `new_message` broadcast is preceded by the durable
persist of the very message it carries. -/
def broadcastAfterPersist (tr : List Act) : Prop :=
  ∀ room m, Act.emitRoom room (Event.newMessage m) ∈ tr →
    ∃ i j, i < j ∧ tr.get? i = some (Act.persistMessage m) ∧
      tr.get? j = some (Act.emitRoom room (Event.newMessage m))

/-- Helper: the ordering property for a trace that starts with the persist
followed by its broadcast, the remainder broadcasting no `new_message`. -/
theorem broadcastAfterPersist_cons (nm : Message) (room' : String) (rest : List Act)
    (h : ∀ r m, Act.emitRoom r (Event.newMessage m) ∉ rest) :
    broadcastAfterPersist
      (Act.persistMessage nm :: Act.emitRoom room' (Event.newMessage nm) :: rest) := by
  intro room m hm
  simp only [List.mem_cons] at hm
  rcases hm with h1 | h2 | h3
  · exact absurd h1 (by simp)
  · simp only [Act.emitRoom.injEq, Event.newMessage.injEq] at h2
    exact ⟨0, 1, by omega, by simp [h2.2], by simp [h2.1, h2.2]⟩
  · exact absurd h3 (h room m)

/-- C6: `send_message` broadcasts only after durable persistence.  For every
outcome of the durable insert, each `new_message` broadcast in the trace is
preceded by the persist of that same message; and when the insert fails the
handler leaves the state untouched and emits nothing but one error event to
the sender — no broadcast ever becomes visible for an unpersisted message. -/
theorem c6_persist_precedes_broadcast (st : St) (user : User) (dealId : Nat)
    (message : String) (msgId now : Nat) (hasRedis : Bool) (deal : Deal)
    (hfind : st.db.findDeal dealId = some deal) :
    (∀ persistOk, broadcastAfterPersist
      (sendMessageHandler st user dealId message msgId now hasRedis persistOk).2) ∧
    (sendMessageHandler st user dealId message msgId now hasRedis false).1 = st ∧
    (sendMessageHandler st user dealId message msgId now hasRedis false).2 =
      [.emitCaller (.errMsg "Error sending message")] := by
  refine ⟨?_, ?_, ?_⟩
  · intro persistOk
    unfold sendMessageHandler
    rw [hfind]
    dsimp only
    cases persistOk
    · rw [if_pos (by simp : ¬ (false = true))]
      intro room m hm
      simp at hm
    · rw [if_neg (by simp : ¬ ¬ (true = true))]
      cases hasRedis <;>
        simp only [Bool.false_eq_true, reduceIte] <;>
        split <;>
        simp only [List.cons_append, List.nil_append] <;>
        (apply broadcastAfterPersist_cons; intro r m; simp)
  · unfold sendMessageHandler
    rw [hfind]
    dsimp only
    rw [if_pos (by simp : ¬ (false = true))]
  · unfold sendMessageHandler
    rw [hfind]
    dsimp only
    rw [if_pos (by simp : ¬ (false = true))]

/-- C6 witness: the ordering property and the failure behaviour evaluated on
the pending fixture deal. -/
theorem c6_persist_precedes_broadcast_witness :
    sampleSt.db.findDeal 1 = some samplePendingDeal ∧
    broadcastAfterPersist (sendMessageHandler sampleSt buyerBea 1 "hello" 6 4 true true).2 ∧
    (sendMessageHandler sampleSt buyerBea 1 "hello" 6 4 true false).1 = sampleSt ∧
    (sendMessageHandler sampleSt buyerBea 1 "hello" 6 4 true false).2 =
      [.emitCaller (.errMsg "Error sending message")] :=
  ⟨by decide,
    (c6_persist_precedes_broadcast sampleSt buyerBea 1 "hello" 6 4 true
      samplePendingDeal (by decide)).1 true,
    (c6_persist_precedes_broadcast sampleSt buyerBea 1 "hello" 6 4 true
      samplePendingDeal (by decide)).2.1,
    (c6_persist_precedes_broadcast sampleSt buyerBea 1 "hello" 6 4 true
      samplePendingDeal (by decide)).2.2⟩

/-- Helper: reading back a just-written cache message list. -/
theorem lrangeMessages_setMessageList (c : Cache) (k : Nat) (l : List CachedMessage) :
    (c.setMessageList k l).lrangeMessages k = l := by
  unfold Cache.lrangeMessages Cache.setMessageList
  rw [List.find?_cons_of_pos _ (by simp)]
  rfl

/-- Helper: `rpush` appends at the tail of the per-deal list. -/
theorem lrangeMessages_rpush (c : Cache) (k : Nat) (x : CachedMessage) :
    (c.rpushMessage k x).lrangeMessages k = c.lrangeMessages k ++ [x] := by
  unfold Cache.rpushMessage
  rw [lrangeMessages_setMessageList]

/-- Helper: the miss-population loop appends the pushed entries in order. -/
theorem lrangeMessages_foldl_rpush (entries : List CachedMessage) (c : Cache) (k : Nat) :
    (entries.foldl (fun c e => c.rpushMessage k e) c).lrangeMessages k =
      c.lrangeMessages k ++ entries := by
  induction entries generalizing c with
  | nil => simp
  | cons e es ih =>
    rw [List.foldl_cons, ih, lrangeMessages_rpush]
    simp

/-- C7: cache round-trip for message history.  Starting from a cache miss, the
first authorized read returns exactly the durable-store query (all messages of
the deal, oldest first) and repopulates the cache with those messages; with no
intervening writes, the next read hits the cache and returns the same
messages — the cached projection of the very same durable-store query — so
both reads agree with the durable store. -/
theorem c7_get_messages_cache_roundtrip (st : St) (user : User) (dealId : Nat)
    (deal : Deal)
    (hfind : st.db.findDeal dealId = some deal)
    (hauth : isAuthorizedOnDeal deal user)
    (hmiss : st.cache.lrangeMessages dealId = [])
    (hne : dbMessagesOf st.db dealId ≠ []) :
    (getMessagesRoute st user dealId true).2.1 = .docs (dbMessagesOf st.db dealId) ∧
    (getMessagesRoute (getMessagesRoute st user dealId true).1 user dealId true).2.1 =
      .cached ((dbMessagesOf st.db dealId).map (toCachedMessage st.db)) := by
  have hfst : getMessagesRoute st user dealId true =
      ({ db := st.db,
         cache := ((dbMessagesOf st.db dealId).map (toCachedMessage st.db)).foldl
           (fun c e => c.rpushMessage dealId e) st.cache },
        .docs (dbMessagesOf st.db dealId),
        ((dbMessagesOf st.db dealId).map (toCachedMessage st.db)).map
          (fun e => .cachePush dealId e)) := by
    unfold getMessagesRoute
    rw [hfind]
    dsimp only
    rw [if_neg (not_not_intro hauth)]
    simp only [reduceIte]
    rw [hmiss, if_neg (by simp)]
  refine ⟨by rw [hfst], ?_⟩
  rw [hfst]
  unfold getMessagesRoute
  dsimp only
  rw [hfind]
  dsimp only
  rw [if_neg (not_not_intro hauth)]
  simp only [reduceIte]
  rw [lrangeMessages_foldl_rpush, hmiss, List.nil_append]
  rw [if_pos (by simpa using hne)]

/-- C7 witness: the round-trip on the completed fixture deal, whose single
stored message is returned by both reads. -/
theorem c7_get_messages_cache_roundtrip_witness :
    sampleSt.db.findDeal 2 = some sampleCompletedDeal ∧
    isAuthorizedOnDeal sampleCompletedDeal buyerBea ∧
    sampleSt.cache.lrangeMessages 2 = [] ∧
    dbMessagesOf sampleSt.db 2 ≠ [] ∧
    (getMessagesRoute sampleSt buyerBea 2 true).2.1 = .docs (dbMessagesOf sampleSt.db 2) ∧
    (getMessagesRoute (getMessagesRoute sampleSt buyerBea 2 true).1 buyerBea 2 true).2.1 =
      .cached ((dbMessagesOf sampleSt.db 2).map (toCachedMessage sampleSt.db)) :=
  ⟨by decide, by decide, by decide, by decide,
    (c7_get_messages_cache_roundtrip sampleSt buyerBea 2 sampleCompletedDeal
      (by decide) (by decide) (by decide) (by decide)).1,
    (c7_get_messages_cache_roundtrip sampleSt buyerBea 2 sampleCompletedDeal
      (by decide) (by decide) (by decide) (by decide)).2⟩

/-- C8: `send_message` is not gated by deal status.  For an existing deal in a
terminal status (`completed` or `cancelled`) and a succeeding durable insert,
the new message is persisted to the store and a `new_message` broadcast is
emitted to the deal channel all the same — the handler never inspects the
status. -/
theorem c8_send_message_ignores_deal_status (st : St) (user : User) (dealId : Nat)
    (message : String) (msgId now : Nat) (hasRedis : Bool) (deal : Deal)
    (hfind : st.db.findDeal dealId = some deal)
    (hterm : deal.status = "completed" ∨ deal.status = "cancelled") :
    ({ id := msgId, deal := dealId, sender := user.id, content := message,
       read := false, createdAt := now } : Message) ∈
      (sendMessageHandler st user dealId message msgId now hasRedis true).1.db.messages ∧
    Act.emitRoom (dealRoom dealId)
        (.newMessage { id := msgId, deal := dealId, sender := user.id, content := message,
                       read := false, createdAt := now }) ∈
      (sendMessageHandler st user dealId message msgId now hasRedis true).2 := by
  unfold sendMessageHandler
  rw [hfind]
  dsimp only
  rw [if_neg (by simp : ¬ ¬ (true = true))]
  cases hasRedis <;> simp only [Bool.false_eq_true, reduceIte] <;> split <;>
    exact ⟨by simp [DB.saveMessage, DB.saveNotification], by simp⟩

/-- C8 witness: a message sent into the completed fixture deal is stored and
broadcast. -/
theorem c8_send_message_ignores_deal_status_witness :
    sampleSt.db.findDeal 2 = some sampleCompletedDeal ∧
    (sampleCompletedDeal.status = "completed" ∨ sampleCompletedDeal.status = "cancelled") ∧
    ({ id := 6, deal := 2, sender := buyerBea.id, content := "still here",
       read := false, createdAt := 4 } : Message) ∈
      (sendMessageHandler sampleSt buyerBea 2 "still here" 6 4 true true).1.db.messages ∧
    Act.emitRoom (dealRoom 2)
        (.newMessage { id := 6, deal := 2, sender := buyerBea.id, content := "still here",
                       read := false, createdAt := 4 }) ∈
      (sendMessageHandler sampleSt buyerBea 2 "still here" 6 4 true true).2 :=
  ⟨by decide, Or.inl (by decide),
    (c8_send_message_ignores_deal_status sampleSt buyerBea 2 "still here" 6 4 true
      sampleCompletedDeal (by decide) (Or.inl (by decide))).1,
    (c8_send_message_ignores_deal_status sampleSt buyerBea 2 "still here" 6 4 true
      sampleCompletedDeal (by decide) (Or.inl (by decide))).2⟩

/-- C10: `send_message` performs no participant authorization.  For an
existing deal and a principal who is neither the deal's buyer, nor its
assigned seller, nor an admin, a succeeding durable insert still stores the
message and the `new_message` broadcast to the deal channel still goes out —
the deal's existence is the only pre-write check. -/
theorem c10_send_message_no_authorization (st : St) (user : User) (dealId : Nat)
    (message : String) (msgId now : Nat) (hasRedis : Bool) (deal : Deal)
    (hfind : st.db.findDeal dealId = some deal)
    (hbuyer : deal.buyer ≠ user.id)
    (hseller : deal.seller ≠ some user.id)
    (hadmin : user.role ≠ Role.admin) :
    ({ id := msgId, deal := dealId, sender := user.id, content := message,
       read := false, createdAt := now } : Message) ∈
      (sendMessageHandler st user dealId message msgId now hasRedis true).1.db.messages ∧
    Act.emitRoom (dealRoom dealId)
        (.newMessage { id := msgId, deal := dealId, sender := user.id, content := message,
                       read := false, createdAt := now }) ∈
      (sendMessageHandler st user dealId message msgId now hasRedis true).2 := by
  unfold sendMessageHandler
  rw [hfind]
  dsimp only
  rw [if_neg (by simp : ¬ ¬ (true = true))]
  cases hasRedis <;> simp only [Bool.false_eq_true, reduceIte] <;> split <;>
    exact ⟨by simp [DB.saveMessage, DB.saveNotification], by simp⟩

/-- C10 witness: the outsider seller writes into the completed fixture deal
she is no participant of, and the message is stored and broadcast. -/
theorem c10_send_message_no_authorization_witness :
    sampleSt.db.findDeal 2 = some sampleCompletedDeal ∧
    sampleCompletedDeal.buyer ≠ sellerEve.id ∧
    sampleCompletedDeal.seller ≠ some sellerEve.id ∧
    sellerEve.role ≠ Role.admin ∧
    ({ id := 7, deal := 2, sender := sellerEve.id, content := "intruding",
       read := false, createdAt := 5 } : Message) ∈
      (sendMessageHandler sampleSt sellerEve 2 "intruding" 7 5 false true).1.db.messages ∧
    Act.emitRoom (dealRoom 2)
        (.newMessage { id := 7, deal := 2, sender := sellerEve.id, content := "intruding",
                       read := false, createdAt := 5 }) ∈
      (sendMessageHandler sampleSt sellerEve 2 "intruding" 7 5 false true).2 :=
  ⟨by decide, by decide, by decide, by decide,
    (c10_send_message_no_authorization sampleSt sellerEve 2 "intruding" 7 5 false
      sampleCompletedDeal (by decide) (by decide) (by decide) (by decide)).1,
    (c10_send_message_no_authorization sampleSt sellerEve 2 "intruding" 7 5 false
      sampleCompletedDeal (by decide) (by decide) (by decide) (by decide)).2⟩

/-- Helper: re-saving the saved message changes nothing. -/
theorem putMessage_putMessage (db : DB) (m : Message) :
    (db.putMessage m).putMessage m = db.putMessage m := by
  unfold DB.putMessage
  simp only [List.map_map]
  congr 1
  apply List.map_congr_left
  intro e _
  by_cases h : e.id = m.id
  · simp [Function.comp, h]
  · simp [Function.comp, h]

/-- Helper: joining a deal room never touches the message store. -/
theorem messages_join (st : St) (u : User) (r : List String) (d : Nat) (h : Bool) :
    (joinDealHandler st u r d h).1.db.messages = st.db.messages := by
  unfold joinDealHandler
  repeat' split
  all_goals try rfl
  all_goals dsimp only
  all_goals repeat' split
  all_goals rfl

/-- Helper: leaving a deal room never touches the message store. -/
theorem messages_leave (st : St) (u : User) (r : List String) (d : Nat) (h : Bool) :
    (leaveDealHandler st u r d h).1.db.messages = st.db.messages := by
  unfold leaveDealHandler
  repeat' split
  all_goals try rfl
  all_goals dsimp only
  all_goals repeat' split
  all_goals rfl

/-- Helper: reading message history never touches the message store. -/
theorem messages_getMessages (st : St) (u : User) (d : Nat) (h : Bool) :
    (getMessagesRoute st u d h).1.db.messages = st.db.messages := by
  unfold getMessagesRoute
  repeat' split
  all_goals try rfl
  all_goals dsimp only
  all_goals repeat' split
  all_goals rfl

/-- Helper: a price update never touches the message store. -/
theorem messages_updatePrice (st : St) (u : User) (d : Nat) (p : Int) (n : Nat) (h : Bool) :
    (updatePriceHandler st u d p n h).1.db.messages = st.db.messages := by
  unfold updatePriceHandler
  repeat' split
  all_goals try rfl
  all_goals dsimp only
  all_goals repeat' split
  all_goals rfl

/-- Helper: a title/description update never touches the message store. -/
theorem messages_updateDeal (st : St) (u : User) (d : Nat) (t de : Option String) (n : Nat) :
    (updateDealRoute st u d t de n).st.db.messages = st.db.messages := by
  unfold updateDealRoute
  repeat' split
  all_goals try rfl
  all_goals dsimp only
  all_goals repeat' split
  all_goals rfl

/-- Helper: a status update never touches the message store. -/
theorem messages_updateStatus (st : St) (u : User) (d : Nat) (s : String) (n : Nat) :
    (updateDealStatusRoute st u d s n).st.db.messages = st.db.messages := by
  unfold updateDealStatusRoute
  repeat' split
  all_goals try rfl
  all_goals dsimp only
  all_goals repeat' split
  all_goals rfl

/-- Helper: `send_message` either leaves the message store unchanged or
appends the one new message. -/
theorem messages_send (st : St) (u : User) (d : Nat) (msg : String) (mi n : Nat)
    (h p : Bool) :
    (sendMessageHandler st u d msg mi n h p).1.db.messages = st.db.messages ∨
    (sendMessageHandler st u d msg mi n h p).1.db.messages =
      st.db.messages ++ [{ id := mi, deal := d, sender := u.id, content := msg,
                           read := false, createdAt := n }] := by
  unfold sendMessageHandler
  repeat' split
  all_goals try first | exact Or.inl rfl | exact Or.inr rfl
  all_goals dsimp only
  all_goals repeat' split
  all_goals first | exact Or.inl rfl | exact Or.inr rfl

/-- Helper: `mark_read` either leaves the message store unchanged or replaces
by id with a message whose read flag is true. -/
theorem messages_markRead (st : St) (mid : Nat) :
    (markReadHandler st mid).1.db.messages = st.db.messages ∨
    ∃ ms : Message, ms.read = true ∧
      (markReadHandler st mid).1.db.messages =
        st.db.messages.map (fun e => if e.id = ms.id then ms else e) := by
  unfold markReadHandler
  cases hf : st.db.findMessage mid with
  | none => exact Or.inl rfl
  | some message => exact Or.inr ⟨{ message with read := true }, rfl, rfl⟩

/-- Helper: across every modelled operation, a message whose read flag is true
keeps (under its id) a true read flag — no operation resets it to false. -/
theorem read_flag_monotonic (op : Op) (st : St) (m : Message)
    (hm : m ∈ st.db.messages) (hr : m.read = true) :
    ∃ m', m' ∈ (applyOp op st).db.messages ∧ m'.id = m.id ∧ m'.read = true := by
  cases op with
  | join u r d h =>
    refine ⟨m, ?_, rfl, hr⟩
    show m ∈ (joinDealHandler st u r d h).1.db.messages
    rw [messages_join]; exact hm
  | leave u r d h =>
    refine ⟨m, ?_, rfl, hr⟩
    show m ∈ (leaveDealHandler st u r d h).1.db.messages
    rw [messages_leave]; exact hm
  | send u d msg mi n h p =>
    rcases messages_send st u d msg mi n h p with heq | heq
    · refine ⟨m, ?_, rfl, hr⟩
      show m ∈ (sendMessageHandler st u d msg mi n h p).1.db.messages
      rw [heq]; exact hm
    · refine ⟨m, ?_, rfl, hr⟩
      show m ∈ (sendMessageHandler st u d msg mi n h p).1.db.messages
      rw [heq]; exact List.mem_append_left _ hm
  | markRead mid =>
    rcases messages_markRead st mid with heq | ⟨ms, hms, heq⟩
    · refine ⟨m, ?_, rfl, hr⟩
      show m ∈ (markReadHandler st mid).1.db.messages
      rw [heq]; exact hm
    · refine ⟨if m.id = ms.id then ms else m, ?_, ?_, ?_⟩
      · show _ ∈ (markReadHandler st mid).1.db.messages
        rw [heq]
        exact List.mem_map_of_mem (fun e => if e.id = ms.id then ms else e) hm
      · by_cases hid : m.id = ms.id
        · simp [hid]
        · simp [hid]
      · by_cases hid : m.id = ms.id
        · simp [hid, hms]
        · simp [hid, hr]
  | updatePrice u d p n h =>
    refine ⟨m, ?_, rfl, hr⟩
    show m ∈ (updatePriceHandler st u d p n h).1.db.messages
    rw [messages_updatePrice]; exact hm
  | updateDeal u d t de n =>
    refine ⟨m, ?_, rfl, hr⟩
    show m ∈ (updateDealRoute st u d t de n).st.db.messages
    rw [messages_updateDeal]; exact hm
  | updateStatus u d s n =>
    refine ⟨m, ?_, rfl, hr⟩
    show m ∈ (updateDealStatusRoute st u d s n).st.db.messages
    rw [messages_updateStatus]; exact hm
  | getMessages u d h =>
    refine ⟨m, ?_, rfl, hr⟩
    show m ∈ (getMessagesRoute st u d h).1.db.messages
    rw [messages_getMessages]; exact hm

/-- C9: `mark_read` is idempotent and the read flag is monotonic.  Marking an
existing message once stores it with `read = true`; marking it a second time
leaves the state exactly as after the first; each application's side effects
are precisely the save of the flagged message and one `message_read`
broadcast to the deal channel (the cache untouched); and no modelled
operation ever turns a message's read flag from true back to false. -/
theorem c9_mark_read_idempotent_monotonic (st : St) (messageId : Nat) (m : Message)
    (hfind : st.db.findMessage messageId = some m) :
    (markReadHandler st messageId).1.db.findMessage messageId =
      some { m with read := true } ∧
    (markReadHandler (markReadHandler st messageId).1 messageId).1 =
      (markReadHandler st messageId).1 ∧
    (markReadHandler st messageId).2 =
      [.persistMessage { m with read := true },
       .emitRoom (dealRoom m.deal) (.messageRead messageId)] ∧
    (markReadHandler st messageId).1.cache = st.cache ∧
    (∀ op st' m', m' ∈ st'.db.messages → m'.read = true →
      ∃ m'', m'' ∈ (applyOp op st').db.messages ∧ m''.id = m'.id ∧ m''.read = true) := by
  have hms := findMessage_putMessage st.db messageId m { m with read := true } hfind rfl
  have h1 : markReadHandler st messageId =
      ({ db := st.db.putMessage { m with read := true }, cache := st.cache },
        [.persistMessage { m with read := true },
         .emitRoom (dealRoom m.deal) (.messageRead messageId)]) := by
    unfold markReadHandler
    rw [hfind]
  refine ⟨?_, ?_, ?_, ?_, fun op st' m' h h' => read_flag_monotonic op st' m' h h'⟩
  · rw [h1]; exact hms
  · rw [h1]
    unfold markReadHandler
    dsimp only
    rw [hms]
    exact congrArg (fun d => St.mk d st.cache)
      (putMessage_putMessage st.db { m with read := true })
  · rw [h1]
  · rw [h1]

/-- C9 witness: the stored fixture message is flagged read, idempotently. -/
theorem c9_mark_read_idempotent_monotonic_witness :
    sampleSt.db.findMessage 5 = some sampleMessage ∧
    (markReadHandler sampleSt 5).1.db.findMessage 5 =
      some { sampleMessage with read := true } ∧
    (markReadHandler (markReadHandler sampleSt 5).1 5).1 = (markReadHandler sampleSt 5).1 :=
  ⟨by decide,
    (c9_mark_read_idempotent_monotonic sampleSt 5 sampleMessage (by decide)).1,
    (c9_mark_read_idempotent_monotonic sampleSt 5 sampleMessage (by decide)).2.1⟩

end VirtualDealRoom
